import Mathlib

/-!
# Verification of the langufy vocabulary backend

A shallow embedding of the route handlers of the langufy repository
(FastAPI + SQLAlchemy), together with theorems settling the specification
claims about them.

Embedded components:

* `src/words/routers.py` — the word search endpoint `search_words` with its
  external-provider (Gemini) fallback, the fallback-category get-or-create,
  and the persistence of provider-synthesized words.
* `src/group/routers.py` — `check_group_ownership`, `update_group`,
  `delete_group`, `add_member`, `remove_member`.
* `src/user/routers.py` — `register_user`, `user_detail`, `update_user`.
* `src/user/models.py`, `src/group/models.py`, `src/words/models.py` — the
  row types and the `is_owner` / `is_member` / `has_permission` helpers.

Database state is explicit: each handler is a pure function from a state
record (lists of rows plus a fresh-id counter standing in for `uuid4`) to an
`Except`-style outcome paired with the successor state.  External
collaborators (the HTTP provider, `json.loads`, the bcrypt hash) are
parameters of the functions that call them.  Machine-level concerns
(connection pooling, transaction interleaving) are outside the model: each
handler call is one request operating on its own state snapshot.
-/

namespace Langufy

/-! ## JSON values

JSON values as far as the Gemini response handling in `src/words/routers.py`
inspects them: objects, arrays and strings are navigated; every other scalar
shape (number, boolean, null) is opaque to this code path and is collapsed
into the single constructor `prim`. -/

inductive Json where
  | str : String → Json
  | arr : List Json → Json
  | obj : List (String × Json) → Json
  | prim : Json

/-- Python `data[k]` on a JSON value: succeeds only on objects holding the
key (a `KeyError` / `TypeError` is `none`). -/
def jsonKey : Json → String → Option Json
  | .obj fields, k => fields.lookup k
  | _, _ => none

/-- Python `data[i]` on a JSON value: succeeds only on arrays long enough
(an `IndexError` / `TypeError` is `none`). -/
def jsonIdx : Json → Nat → Option Json
  | .arr xs, i => xs.get? i
  | _, _ => none

/-- A JSON value usable where Python expects a `str` (`json.loads` input). -/
def jsonAsStr : Json → Option String
  | .str s => some s
  | _ => none

/-! ## Word / Category rows (`src/words/models.py`) -/

/-- A row of the `words` table.  Columns `uzbek`, `english` are NOT NULL
strings, `definition` is nullable, `category_uid` is a NOT NULL foreign key.
Generated UUIDs are modelled as naturals. -/
structure Word where
  uid : Nat
  uzbek : String
  english : String
  definition : Option String
  category_uid : Nat
deriving Repr, DecidableEq

/-- A row of the `categories` table; `name` is NOT NULL and unique. -/
structure Category where
  uid : Nat
  name : String
deriving Repr, DecidableEq

/-- The dictionary-store state: category rows, word rows, and a counter
producing the next generated id (standing in for `uuid.uuid4`). -/
structure DictDB where
  categories : List Category
  words : List Word
  nextUid : Nat
deriving Repr, DecidableEq

/-! ## The search hit path -/

/-- Substring test on character lists. -/
def containsSub (needle : List Char) : List Char → Bool
  | [] => needle.isEmpty
  | c :: t => needle.isPrefixOf (c :: t) || containsSub needle t

/-- The characters of a string, lowercased. -/
def lowerChars (s : String) : List Char :=
  s.toList.map Char.toLower

/-- Case-insensitive substring containment.  This is the matching notion the
spec's contract describes ("contains the search term, case-insensitive
substring match"); the store query itself is the SQL `ILIKE` pattern match
`ilike` below, which coincides with this notion exactly when the search
term is free of the SQL wildcard characters `%`, `_` and the escape
character. -/
def likeContains (hay q : String) : Bool :=
  containsSub (lowerChars q) (lowerChars hay)

/-- Does some suffix of the character list satisfy `f`?  (Used for the `%`
wildcard, which matches any sequence of characters.) -/
def suffix_any (f : List Char → Bool) : List Char → Bool
  | [] => f []
  | c :: t => f (c :: t) || suffix_any f t

/-- SQL `LIKE` pattern matching over characters: `%` matches any sequence,
`_` matches exactly one character, a backslash escapes the next pattern
character to a literal, and any other character matches itself.  (A pattern
ending in a lone escape character is a SQL error and matches nothing; the
patterns built by the handler always end in `%`.) -/
def like_match : List Char → List Char → Bool
  | [] => fun s => s.isEmpty
  | '%' :: ps => fun s => suffix_any (like_match ps) s
  | '_' :: ps => fun s =>
      match s with
      | [] => false
      | _ :: t => like_match ps t
  | '\\' :: c :: ps => fun s =>
      match s with
      | [] => false
      | x :: t => x == c && like_match ps t
  | ['\\'] => fun _ => false
  | c :: ps => fun s =>
      match s with
      | [] => false
      | x :: t => x == c && like_match ps t

/-- PostgreSQL `ILIKE`: case-insensitive `LIKE`, modelled by lowercasing
both the target and the pattern before matching. -/
def ilike (target pattern : String) : Bool :=
  like_match (lowerChars pattern) (lowerChars target)

/-- The store query of `search_words`: all words whose `english` column
matches the `ILIKE` pattern `f"%{q}%"` — the search term is interpolated
raw, so wildcard characters inside `q` keep their SQL pattern meaning —
in store retrieval order. -/
def db_search (db : DictDB) (q : String) : List Word :=
  db.words.filter (fun w => ilike w.english ("%" ++ q ++ "%"))

/-! ## The provider and the miss path -/

/-- One observed response of the external definition provider (the Gemini
HTTP call): its status code, the result of `response.json()` (`none` when
the body is not JSON and the call raises `ValueError`), and `response.text`. -/
structure ProviderResponse where
  status_code : Nat
  json_body : Option Json
  text_body : String

/-- The payload embedded in the 502 error detail: `response.json()` when the
body parses, else `response.text`. -/
inductive Payload where
  | jsonPayload : Json → Payload
  | textPayload : String → Payload

/-- `error_payload` of the non-success branch of `search_words`. -/
def error_payload (resp : ProviderResponse) : Payload :=
  match resp.json_body with
  | some j => .jsonPayload j
  | none => .textPayload resp.text_body

/-- Failure outcomes of `search_words`.

The first two are the `HTTPException`s the handler raises itself; the last
three are uncaught Python exceptions escaping the handler (the framework
turns those into a generic server error, with no diagnostic payload):

* `geminiServiceError` — HTTP 502, provider returned a non-success status;
  carries the provider status and raw payload.
* `invalidGeminiFormat` — HTTP 500, the completion could not be extracted
  from the response or failed `json.loads`; carries the raw response `data`.
* `jsonDecodeCrash` — `response.json()` raised on a status-200 non-JSON body
  (line `data = response.json()` is outside any `try`).
* `attributeCrash` — `parsed.get` on a non-`dict` parse result
  (`AttributeError`; the `parsed.get` calls are outside the `try`).
* `integrityCrash` — the `words` insert violated a column constraint
  (`uzbek` NOT NULL, or a non-string value bound to a string column). -/
inductive SearchFailure where
  | geminiServiceError : Nat → Payload → SearchFailure
  | invalidGeminiFormat : Json → SearchFailure
  | jsonDecodeCrash : SearchFailure
  | attributeCrash : Json → SearchFailure
  | integrityCrash : SearchFailure

/-- The HTTP status of the failures the handler raises as `HTTPException`
(`none` for uncaught exceptions). -/
def SearchFailure.httpStatus : SearchFailure → Option Nat
  | .geminiServiceError _ _ => some 502
  | .invalidGeminiFormat _ => some 500
  | _ => none

/-- `data["candidates"][0]["content"]["parts"][0]["text"]` — the extraction
of the model completion from the provider response body; any navigation
failure is `none` (caught by the surrounding `except Exception`). -/
def extract_ai_text (data : Json) : Option String :=
  ((((((jsonKey data "candidates").bind (jsonIdx · 0)).bind
      (jsonKey · "content")).bind (jsonKey · "parts")).bind
      (jsonIdx · 0)).bind (jsonKey · "text")).bind jsonAsStr

/-- The fallback-category resolution of the miss path: look up the category
named "Gemini Generated"; if absent, insert (and commit) a fresh one. -/
def get_or_create_gemini_category (db : DictDB) : Category × DictDB :=
  match db.categories.find? (fun c => c.name == "Gemini Generated") with
  | some c => (c, db)
  | none =>
      let c : Category := ⟨db.nextUid, "Gemini Generated"⟩
      (c, { db with categories := db.categories ++ [c], nextUid := db.nextUid + 1 })

/-- The result of one `search_words` request: the outcome, the store state
after the request, and the number of provider calls the request performed. -/
structure SearchRun where
  outcome : Except SearchFailure (List Word)
  db : DictDB
  provider_calls : Nat

/-- The `GET /words/search/` handler (`search_words` in
`src/words/routers.py`).

`resp` is the response the provider would give if called (the model performs
the call exactly where the handler posts to the provider, and
`provider_calls` counts those points); `json_loads` is Python's
`json.loads`, returning `none` when it raises. -/
def search_words (db : DictDB) (q : String) (resp : ProviderResponse)
    (json_loads : String → Option Json) : SearchRun :=
  let words := db_search db q
  if words.isEmpty then
    -- miss: one provider call is made
    if resp.status_code ≠ 200 then
      ⟨.error (.geminiServiceError resp.status_code (error_payload resp)), db, 1⟩
    else
      match resp.json_body with
      | none => ⟨.error .jsonDecodeCrash, db, 1⟩
      | some data =>
        match (extract_ai_text data).bind json_loads with
        | none => ⟨.error (.invalidGeminiFormat data), db, 1⟩
        | some parsed =>
          match parsed with
          | .obj fields =>
            let gc := get_or_create_gemini_category db
            let category := gc.1
            let db1 := gc.2
            match fields.lookup "uzbek", fields.lookup "definition" with
            | some (.str u), some (.str d) =>
                let w : Word := ⟨db1.nextUid, u, q, some d, category.uid⟩
                ⟨.ok [w], { db1 with words := db1.words ++ [w],
                                     nextUid := db1.nextUid + 1 }, 1⟩
            | some (.str u), none =>
                let w : Word := ⟨db1.nextUid, u, q, none, category.uid⟩
                ⟨.ok [w], { db1 with words := db1.words ++ [w],
                                     nextUid := db1.nextUid + 1 }, 1⟩
            | _, _ => ⟨.error .integrityCrash, db1, 1⟩
          | _ => ⟨.error (.attributeCrash parsed), db, 1⟩
  else
    ⟨.ok words, db, 0⟩

/-! ## User rows (`src/user/models.py`)

Both role enumerations of the source are `str`-valued enums whose members
compare equal to their string values, so roles are modelled as strings. -/

/-- A row of the `users` table. -/
structure Users where
  id : Nat
  email : String
  user_name : String
  full_name : String
  phone_number : String
  role : String
  is_active : String
  password : String
deriving Repr, DecidableEq

/-- `role_hierarchy` of `Users.has_permission`: unknown roles rank 0
(`role_hierarchy.get(..., 0)`). -/
def role_rank : String → Nat
  | "student" => 1
  | "teacher" => 2
  | "admin" => 3
  | "superadmin" => 4
  | _ => 0

/-- `Users.has_permission`: the caller's rank reaches the required rank. -/
def has_permission (self_role required_role : String) : Bool :=
  role_rank required_role ≤ role_rank self_role

/-- The role values accepted by the request schema `UserRole` in
`src/user/schemas.py` (note: its fourth member is `superuser`, while the
database enum of `src/user/models.py` has `superadmin`). -/
def schema_roles : List String := ["student", "teacher", "admin", "superuser"]

/-! ## Group rows (`src/group/models.py`) -/

/-- A row of the `groups` table, with the `group_members` association rows
for this group inlined as the list of member user ids (the association table
has a composite primary key, so a user appears at most once). -/
structure Group where
  uid : Nat
  name : String
  description : Option String
  owner_id : Nat
  members_count : Nat
  members : List Nat
deriving Repr, DecidableEq

/-- `Group.is_owner`. -/
def Group.is_owner (g : Group) (user_id : Nat) : Bool :=
  g.owner_id == user_id

/-- `Group.is_member`: `any(member.id == user_id for member in self.members)`. -/
def Group.is_member (g : Group) (user_id : Nat) : Bool :=
  g.members.contains user_id

/-- The state the group handlers act on: the `users` and `groups` tables. -/
structure GroupDB where
  users : List Users
  groups : List Group
deriving Repr, DecidableEq

/-- An `HTTPException` as raised by the user and group handlers: status code
and detail string, exactly as in the source. -/
structure ApiErr where
  status_code : Nat
  detail : String
deriving Repr, DecidableEq

/-- `select(Group).where(Group.uid == group_id)` resolved to one row. -/
def find_group (db : GroupDB) (group_uid : Nat) : Option Group :=
  db.groups.find? (fun g => g.uid == group_uid)

/-- `select(Users).where(Users.id == user_id)` resolved to one row. -/
def find_user (db : GroupDB) (user_id : Nat) : Option Users :=
  db.users.find? (fun u => u.id == user_id)

/-- Committing an updated group row back to the store (same `uid`). -/
def put_group (db : GroupDB) (g : Group) : GroupDB :=
  { db with groups := db.groups.map (fun x => if x.uid == g.uid then g else x) }

/-- `check_group_ownership` of `src/group/routers.py`: resolve the group by
id (404 `"Group not found"` if absent), then require the caller to be its
owner (403 otherwise). -/
def check_group_ownership (db : GroupDB) (group_uid : Nat)
    (current_user_id : Nat) : Except ApiErr Group :=
  match find_group db group_uid with
  | none => .error ⟨404, "Group not found"⟩
  | some group =>
      if group.is_owner current_user_id then .ok group
      else .error ⟨403, "Only group owner can perform this action"⟩

/-- The request body of `PUT /groups/{uid}` (`GroupUpdate` in
`src/group/schemas.py`): both fields optional. -/
structure GroupUpdate where
  name : Option String
  description : Option String

/-- The `PUT /groups/{group_uid}` handler `update_group`: ownership check,
then partial update of `name` / `description`. -/
def update_group (db : GroupDB) (group_uid : Nat) (current_user_id : Nat)
    (group_in : GroupUpdate) : Except ApiErr (Group × GroupDB) :=
  match check_group_ownership db group_uid current_user_id with
  | .error e => .error e
  | .ok group =>
      let g1 := match group_in.name with
        | some n => { group with name := n }
        | none => group
      let g2 := match group_in.description with
        | some d => { g1 with description := d }
        | none => g1
      .ok (g2, put_group db g2)

/-- The `DELETE /groups/{group_uid}` handler `delete_group`: ownership
check, then row deletion (membership rows are inlined in the group row, so
deleting the row cascades to them). -/
def delete_group (db : GroupDB) (group_uid : Nat) (current_user_id : Nat) :
    Except ApiErr GroupDB :=
  match check_group_ownership db group_uid current_user_id with
  | .error e => .error e
  | .ok group =>
      .ok { db with groups := db.groups.filter (fun g => g.uid != group.uid) }

/-- The `POST /groups/{group_uid}/members` handler `add_member`: ownership
check; 404 `"User not found"` if the target user row is absent; 400
`"User is already a member"` if already a member; otherwise append the user
to the member list and recompute `members_count` as the new list's length
(`group.members_count = len(group.members)`). -/
def add_member (db : GroupDB) (group_uid : Nat) (current_user_id : Nat)
    (member_user_id : Nat) : Except ApiErr (Group × GroupDB) :=
  match check_group_ownership db group_uid current_user_id with
  | .error e => .error e
  | .ok group =>
      match find_user db member_user_id with
      | none => .error ⟨404, "User not found"⟩
      | some _ =>
          if group.is_member member_user_id then
            .error ⟨400, "User is already a member"⟩
          else
            let members1 := group.members ++ [member_user_id]
            let group1 := { group with members := members1,
                                       members_count := members1.length }
            .ok (group1, put_group db group1)

/-- The `DELETE /groups/{group_uid}/members` handler `remove_member`:
ownership check; 404 `"User is not a member"` if the target is not a member;
otherwise filter the member out and recompute `members_count` as the new
list's length. -/
def remove_member (db : GroupDB) (group_uid : Nat) (current_user_id : Nat)
    (member_user_id : Nat) : Except ApiErr (Group × GroupDB) :=
  match check_group_ownership db group_uid current_user_id with
  | .error e => .error e
  | .ok group =>
      if group.is_member member_user_id then
        let members1 := group.members.filter (fun m => m != member_user_id)
        let group1 := { group with members := members1,
                                   members_count := members1.length }
        .ok (group1, put_group db group1)
      else
        .error ⟨404, "User is not a member"⟩

/-! ## User handlers (`src/user/routers.py`) -/

/-- The state the user handlers act on: the `users` table plus the fresh-id
counter standing in for `uuid4`. -/
structure UserDB where
  users : List Users
  next_id : Nat
deriving Repr, DecidableEq

/-- The request body of `POST /register` (`UserCreate` in
`src/user/schemas.py`), after schema validation. -/
structure UserCreate where
  email : String
  user_name : String
  full_name : String
  phone_number : String
  role : String
  password : String
deriving Repr, DecidableEq

/-- The capacity-rejection error of `register_user`. -/
def regClosedErr : ApiErr :=
  ⟨400, "Registration is closed. Only 3 users are allowed."⟩

/-- The `POST /register` handler `register_user`.  `hash` is the bcrypt
`get_password_hash`, a black box.  The handler first counts the user rows
and rejects once the count has reached 3, before looking at any field of
the request; then checks email and username uniqueness; then inserts. -/
def register_user (hash : String → String) (db : UserDB) (user : UserCreate) :
    Except ApiErr (UserDB × Users) :=
  if 3 ≤ db.users.length then
    .error regClosedErr
  else if (db.users.find? (fun u => u.email == user.email)).isSome then
    .error ⟨400, "Email is already registered."⟩
  else if (db.users.find? (fun u => u.user_name == user.user_name)).isSome then
    .error ⟨400, "Username is already taken."⟩
  else
    let new_user : Users :=
      ⟨db.next_id, user.email, user.user_name, user.full_name,
       user.phone_number, user.role, "active", hash user.password⟩
    .ok ({ users := db.users ++ [new_user], next_id := db.next_id + 1 },
         new_user)

/-- Modelled from the spec: the token module `user/jwt_auth.py`
(`JWTAuth.decode_token` and `JWTBearer`) is imported by `src/user/routers.py`
but its source is not part of the repository snapshot.  Per the spec, token
validation resolves a bearer token to a user id, and invalid or expired
tokens fail validation.  A bearer token is modelled by its signature
validity, its expiry state, and the user id it binds. -/
structure BearerToken where
  signature_valid : Bool
  expired : Bool
  user_id : Nat
deriving Repr, DecidableEq

/-- Modelled from the spec: `JWTAuth.decode_token` succeeds exactly on
valid, unexpired tokens, yielding the bound user id (the handlers read
`decoded_token.get("user_id")`); it is falsy otherwise. -/
def decode_token (t : BearerToken) : Option Nat :=
  if t.signature_valid && !t.expired then some t.user_id else none

/-- `select(Users).where(Users.id == user_uuid)` on the user table. -/
def find_user_by_id (db : UserDB) (user_id : Nat) : Option Users :=
  db.users.find? (fun u => u.id == user_id)

/-- The `GET /user_detail` handler `user_detail`: 401
`"Invalid authentication credentials"` when the token fails validation; 404
`"User not found"` when the bound user id resolves to no row; otherwise the
user row (returned without the password field — field selection is not
modelled). -/
def user_detail (db : UserDB) (jwt_token : BearerToken) : Except ApiErr Users :=
  match decode_token jwt_token with
  | none => .error ⟨401, "Invalid authentication credentials"⟩
  | some user_uuid =>
      match find_user_by_id db user_uuid with
      | none => .error ⟨404, "User not found"⟩
      | some user => .ok user

/-- The request body of `PATCH /update_user` (`UserBase` in
`src/user/schemas.py`), after schema validation: all five fields required,
`role` drawn from the schema's role enum. -/
structure UserBase where
  email : String
  user_name : String
  full_name : String
  phone_number : String
  role : String
deriving Repr, DecidableEq

/-- Committing an updated user row back to the store (same `id`). -/
def put_user (db : UserDB) (u : Users) : UserDB :=
  { db with users := db.users.map (fun x => if x.id == u.id then u else x) }

/-- The role values of the database enum `UserRole` in `src/user/models.py`:
the `role` column is `SQLEnum(UserRole)`, so a commit binding any other
value fails.  Note the difference from `schema_roles`: the schema accepts
`superuser`, the database enum only `superadmin`. -/
def db_roles : List String := ["student", "teacher", "admin", "superadmin"]

/-- The `PATCH /update_user` handler `update_user`: token validation (401),
user resolution (404), email / username uniqueness checks when the value is
being changed (400), then an unconditional overwrite of `full_name`,
`phone_number`, `email`, `user_name` and `role` with the request's values —
there is no check on the caller's current role or the requested role in the
handler itself.  The commit, however, binds `role` against the database
enum: a value outside `db_roles` makes the commit raise, and the handler's
`except Exception` rolls back and returns the 500
`"Failed to update user. Please try again later."` error, leaving the
stored row unchanged. -/
def update_user (db : UserDB) (jwt_token : BearerToken)
    (user_data : UserBase) : Except ApiErr (UserDB × Users) :=
  match decode_token jwt_token with
  | none => .error ⟨401, "Invalid authentication credentials"⟩
  | some user_uuid =>
      match find_user_by_id db user_uuid with
      | none => .error ⟨404, "User not found"⟩
      | some user =>
          if user_data.email != user.email &&
             (db.users.find? (fun u => u.email == user_data.email)).isSome then
            .error ⟨400, "Email already exists"⟩
          else if user_data.user_name != user.user_name &&
             (db.users.find?
               (fun u => u.user_name == user_data.user_name)).isSome then
            .error ⟨400, "Username already taken"⟩
          else
            let user1 := { user with
              full_name := user_data.full_name,
              phone_number := user_data.phone_number,
              email := user_data.email,
              user_name := user_data.user_name,
              role := user_data.role }
            if db_roles.contains user1.role then
              .ok (put_user db user1, user1)
            else
              .error ⟨500, "Failed to update user. Please try again later."⟩

/-! ## Concrete fixtures used by witnesses and counterexamples -/

/-- A provider response body whose extracted completion text is the literal
string "J". -/
def geminiData0 : Json :=
  .obj [("candidates", .arr [.obj [("content",
    .obj [("parts", .arr [.obj [("text", .str "J")]])])]])]

/-- A `json.loads` behaviour mapping the completion "J" to a JSON object
holding both required keys. -/
def loadsFull : String → Option Json :=
  fun s => if s = "J" then
    some (.obj [("uzbek", .str "salom"), ("definition", .str "greeting")])
  else none

/-- A `json.loads` behaviour mapping the completion "J" to a JSON object
holding only the key "uzbek" — the "definition" key is absent. -/
def loadsNoDefinition : String → Option Json :=
  fun s => if s = "J" then some (.obj [("uzbek", .str "salom")]) else none

/-- A dictionary store holding one word whose English term is "Hello". -/
def hitDB : DictDB := ⟨[⟨0, "Basics"⟩], [⟨1, "salom", "Hello", none, 0⟩], 2⟩

/-- A user row with the given id, email, username and role. -/
def mkUsers (id : Nat) (em un rl : String) : Users :=
  ⟨id, em, un, "Name", "phone", rl, "active", "pw"⟩

/-- A group store: a teacher (id 5) owning group 1, whose member set is
{8}; user 7 exists but is not a member. -/
def groupDB : GroupDB :=
  ⟨[mkUsers 5 "t@x" "tt" "teacher", mkUsers 7 "s@x" "ss" "student",
    mkUsers 8 "m@x" "mm" "student"],
   [⟨1, "Math101", none, 5, 1, [8]⟩]⟩

/-- A user store at the registration capacity of 3. -/
def fullUserDB : UserDB :=
  ⟨[mkUsers 1 "a@x" "aa" "student", mkUsers 2 "b@x" "bb" "student",
    mkUsers 3 "c@x" "cc" "student"], 4⟩

/-- A user store holding one student with id 7. -/
def oneUserDB : UserDB := ⟨[mkUsers 7 "a@x" "aa" "student"], 8⟩

/-! ## Helper lemmas -/

/-- The fallback-category resolution yields a category named
"Gemini Generated" that is present in the successor store, without touching
the word rows, the group of categories only growing. -/
theorem get_or_create_gemini_category_spec (db : DictDB) :
    (get_or_create_gemini_category db).1.name = "Gemini Generated" ∧
    (get_or_create_gemini_category db).1 ∈
      (get_or_create_gemini_category db).2.categories ∧
    (get_or_create_gemini_category db).2.words = db.words := by
  unfold get_or_create_gemini_category
  cases h : db.categories.find? (fun c => c.name == "Gemini Generated") with
  | none => simp
  | some c =>
      refine ⟨?_, ?_, rfl⟩
      · have := List.find?_some h
        simpa using this
      · exact List.mem_of_find?_eq_some h

/-- Replacing, in a list containing an element of uid `g'.uid`, every
element of that uid by `g'`, makes `g'` the first element found by uid. -/
theorem find_replace_list (l : List Group) (g g' : Group)
    (hmem : g ∈ l) (huid : g.uid = g'.uid) :
    (l.map (fun x => if x.uid == g'.uid then g' else x)).find?
      (fun x => x.uid == g'.uid) = some g' := by
  induction l with
  | nil => cases hmem
  | cons a t ih =>
      rcases List.mem_cons.mp hmem with h | hmt
      · subst h
        have hcond : (g.uid == g'.uid) = true := beq_iff_eq.mpr huid
        rw [List.map_cons, if_pos hcond, List.find?_cons_of_pos _ (by simp)]
      · by_cases ha : a.uid = g'.uid
        · have hcond : (a.uid == g'.uid) = true := beq_iff_eq.mpr ha
          rw [List.map_cons, if_pos hcond, List.find?_cons_of_pos _ (by simp)]
        · have ha' : (a.uid == g'.uid) = false := beq_eq_false_iff_ne.mpr ha
          rw [List.map_cons, if_neg (by simp [ha']),
              List.find?_cons_of_neg _ (by simp [ha'])]
          exact ih hmt

/-- Resolving a group after committing an updated row of the same uid
yields the updated row. -/
theorem find_group_put_group (db : GroupDB) (guid : Nat) (g g' : Group)
    (hf : find_group db guid = some g) (huid : g'.uid = g.uid) :
    find_group (put_group db g') guid = some g' := by
  have hmem : g ∈ db.groups := List.mem_of_find?_eq_some hf
  have hguid : g.uid = guid := by simpa using List.find?_some hf
  have h2 : guid = g'.uid := by rw [huid, hguid]
  unfold find_group put_group
  simp only [h2]
  exact find_replace_list db.groups g g' hmem (huid.symm ▸ rfl)

/-- Inversion of a successful `add_member`: the group was resolved, the
caller owns it, the target user exists and was not yet a member, the
returned group appends the target and recomputes the count, and the store
commits that row. -/
theorem add_member_ok_inv (db : GroupDB) (guid caller target : Nat)
    (g' : Group) (db' : GroupDB)
    (h : add_member db guid caller target = .ok (g', db')) :
    ∃ g, find_group db guid = some g ∧ g.is_owner caller = true ∧
      (find_user db target).isSome = true ∧
      g.is_member target = false ∧
      g' = { g with members := g.members ++ [target],
                    members_count := (g.members ++ [target]).length } ∧
      db' = put_group db g' := by
  unfold add_member check_group_ownership at h
  cases hf : find_group db guid with
  | none => rw [hf] at h; cases h
  | some g =>
      rw [hf] at h
      refine ⟨g, rfl, ?_⟩
      by_cases how : g.is_owner caller = true
      · cases hu : find_user db target with
        | none => simp [how, hu] at h
        | some u =>
            by_cases hm : g.is_member target = true
            · simp [how, hu, hm] at h
            · simp [how, hu, hm] at h
              obtain ⟨h1, h2⟩ := h
              refine ⟨how, rfl, by simpa using hm, ?_, ?_⟩
              · rw [← h1]; simp
              · rw [← h2, ← h1]
      · simp [how] at h

/-- Inversion of a successful `remove_member`: the group was resolved, the
caller owns it, the target was a member, the returned group filters the
target out and recomputes the count, and the store commits that row. -/
theorem remove_member_ok_inv (db : GroupDB) (guid caller target : Nat)
    (g' : Group) (db' : GroupDB)
    (h : remove_member db guid caller target = .ok (g', db')) :
    ∃ g, find_group db guid = some g ∧ g.is_owner caller = true ∧
      g.is_member target = true ∧
      g' = { g with members := g.members.filter (fun m => m != target),
                    members_count :=
                      (g.members.filter (fun m => m != target)).length } ∧
      db' = put_group db g' := by
  unfold remove_member check_group_ownership at h
  cases hf : find_group db guid with
  | none => rw [hf] at h; cases h
  | some g =>
      rw [hf] at h
      refine ⟨g, rfl, ?_⟩
      by_cases how : g.is_owner caller = true
      · by_cases hm : g.is_member target = true
        · simp [how, hm] at h
          obtain ⟨h1, h2⟩ := h
          refine ⟨how, hm, ?_, ?_⟩
          · rw [← h1]
          · rw [← h2, ← h1]
        · simp [how, hm] at h
      · simp [how] at h

/-- A `contains` check returning false means non-membership. -/
theorem not_mem_of_contains_eq_false {a : Nat} {l : List Nat}
    (h : l.contains a = false) : a ∉ l := by
  intro hmem
  rw [List.contains, List.elem_iff.mpr hmem] at h
  cases h

/-- Filtering out an element absent from a list leaves the list unchanged. -/
theorem filter_bne_of_not_mem {a : Nat} {l : List Nat} (h : a ∉ l) :
    l.filter (fun m => m != a) = l :=
  List.filter_eq_self.mpr fun _ hm =>
    bne_iff_ne.mpr fun e => h (e ▸ hm)

/-! ## Claim theorems -/

/-- C1 counterexample: for the search term "%" against a store holding
"100%" and "hello", the claim's hypothesis holds — the stored word "100%"
contains "%" as a substring (and "hello" does not) — yet the code's raw
`ILIKE '%%%'` query matches every word, so the operation returns both
words, not "that non-empty set of matching Words". -/
theorem search_wildcard_hit_set_mismatch :
    likeContains "100%" "%" = true ∧
    likeContains "hello" "%" = false ∧
    (search_words ⟨[⟨0, "Basics"⟩], [⟨1, "u1", "100%", none, 0⟩,
        ⟨2, "u2", "hello", none, 0⟩], 3⟩ "%" ⟨200, none, ""⟩
      (fun _ => none)).outcome =
      .ok [⟨1, "u1", "100%", none, 0⟩, ⟨2, "u2", "hello", none, 0⟩] :=
  ⟨by decide, by decide, rfl⟩

/-- C1 amended: for every search term `q`, if the dictionary store contains
at least one word whose English term matches the SQL `ILIKE` pattern
`f"%{q}%"` — for `q` free of SQL wildcard and escape characters this is
exactly case-insensitive substring containment of `q` — then `search_words`
returns exactly the non-empty list of pattern-matching words (in store
order), makes no call to the external definition provider, and leaves the
store unchanged. -/
theorem search_hit_no_provider_call
    (db : DictDB) (q : String) (resp : ProviderResponse)
    (json_loads : String → Option Json) (w : Word)
    (hw : w ∈ db.words)
    (hmatch : ilike w.english ("%" ++ q ++ "%") = true) :
    (search_words db q resp json_loads).outcome = .ok (db_search db q) ∧
    db_search db q ≠ [] ∧
    (search_words db q resp json_loads).provider_calls = 0 ∧
    (search_words db q resp json_loads).db = db := by
  have hne : db_search db q ≠ [] := by
    intro h
    have hmem : w ∈ db_search db q := List.mem_filter.mpr ⟨hw, hmatch⟩
    rw [h] at hmem
    cases hmem
  have hempty : (db_search db q).isEmpty = false := by
    cases h : db_search db q with
    | nil => exact absurd h hne
    | cons a l => rfl
  refine ⟨?_, hne, ?_, ?_⟩ <;> simp [search_words, hempty]

/-- Witness for C1 at a concrete store: searching "hell" against a store
holding the word "Hello" returns that word with zero provider calls. -/
theorem search_hit_no_provider_call_witness :
    (search_words hitDB "hell" ⟨200, none, ""⟩ (fun _ => none)).outcome =
      .ok (db_search hitDB "hell") ∧
    db_search hitDB "hell" ≠ [] ∧
    (search_words hitDB "hell" ⟨200, none, ""⟩
      (fun _ => none)).provider_calls = 0 ∧
    (search_words hitDB "hell" ⟨200, none, ""⟩ (fun _ => none)).db = hitDB :=
  search_hit_no_provider_call hitDB "hell" ⟨200, none, ""⟩ (fun _ => none)
    ⟨1, "salom", "Hello", none, 0⟩ (by decide) (by decide)

/-- C2: for a search term with no match in the store, one `search_words`
call makes exactly one provider call, and when the provider's completion
parses to an object supplying both keys, persists exactly one new word —
English term `q`, the provider-supplied Uzbek term and definition — under
the fallback category "Gemini Generated", and returns the single-element
list holding that new word. -/
theorem search_miss_persists_one_word
    (db : DictDB) (q : String) (resp : ProviderResponse)
    (json_loads : String → Option Json)
    (hmiss : db_search db q = [])
    (hstatus : resp.status_code = 200)
    (data : Json) (hdata : resp.json_body = some data)
    (fields : List (String × Json)) (u d : String)
    (hparse : (extract_ai_text data).bind json_loads = some (.obj fields))
    (hu : fields.lookup "uzbek" = some (.str u))
    (hd : fields.lookup "definition" = some (.str d)) :
    ∃ w : Word, ∃ c : Category,
      (search_words db q resp json_loads).outcome = .ok [w] ∧
      w.english = q ∧ w.uzbek = u ∧ w.definition = some d ∧
      c.name = "Gemini Generated" ∧ w.category_uid = c.uid ∧
      c ∈ (search_words db q resp json_loads).db.categories ∧
      (search_words db q resp json_loads).db.words = db.words ++ [w] ∧
      (search_words db q resp json_loads).provider_calls = 1 := by
  have hempty : (db_search db q).isEmpty = false → False := by
    rw [hmiss]; intro h; cases h
  obtain ⟨hname, hmem, hwords⟩ := get_or_create_gemini_category_spec db
  refine ⟨⟨(get_or_create_gemini_category db).2.nextUid, u, q, some d,
           (get_or_create_gemini_category db).1.uid⟩,
          (get_or_create_gemini_category db).1, ?_, rfl, rfl, rfl, hname,
          rfl, ?_, ?_, ?_⟩ <;>
    simp [search_words, hmiss, hstatus, hdata, hparse, hu, hd, hmem, hwords]

/-- Witness for C2 at concrete inputs: a miss for "hello" against an empty
store, with a provider completion parsing to both keys, creates and returns
one word. -/
theorem search_miss_persists_one_word_witness :
    ∃ w : Word, ∃ c : Category,
      (search_words ⟨[], [], 0⟩ "hello" ⟨200, some geminiData0, "raw"⟩
        loadsFull).outcome = .ok [w] ∧
      w.english = "hello" ∧ w.uzbek = "salom" ∧ w.definition = some "greeting" ∧
      c.name = "Gemini Generated" ∧ w.category_uid = c.uid ∧
      c ∈ (search_words ⟨[], [], 0⟩ "hello" ⟨200, some geminiData0, "raw"⟩
        loadsFull).db.categories ∧
      (search_words ⟨[], [], 0⟩ "hello" ⟨200, some geminiData0, "raw"⟩
        loadsFull).db.words = ([] : List Word) ++ [w] ∧
      (search_words ⟨[], [], 0⟩ "hello" ⟨200, some geminiData0, "raw"⟩
        loadsFull).provider_calls = 1 :=
  search_miss_persists_one_word ⟨[], [], 0⟩ "hello"
    ⟨200, some geminiData0, "raw"⟩ loadsFull rfl rfl geminiData0 rfl
    [("uzbek", .str "salom"), ("definition", .str "greeting")]
    "salom" "greeting" rfl rfl rfl

/-- C3 counterexample: the completion parses to a JSON object lacking the
required key "definition", yet the operation does not fail — it persists a
word (with null definition) and returns it successfully, contradicting the
claim that a missing required key yields a 500 error with nothing
persisted. -/
theorem search_missing_key_not_rejected :
    (extract_ai_text geminiData0).bind loadsNoDefinition =
      some (.obj [("uzbek", .str "salom")]) ∧
    ([("uzbek", Json.str "salom")]).lookup "definition" = none ∧
    (search_words ⟨[], [], 0⟩ "zxqv" ⟨200, some geminiData0, "raw"⟩
      loadsNoDefinition).outcome = .ok [⟨1, "salom", "zxqv", none, 0⟩] ∧
    (search_words ⟨[], [], 0⟩ "zxqv" ⟨200, some geminiData0, "raw"⟩
      loadsNoDefinition).db.words = [⟨1, "salom", "zxqv", none, 0⟩] :=
  ⟨rfl, rfl, rfl, rfl⟩

/-- C3 amended: in the miss path, when the completion cannot be extracted
from the provider response or fails to parse as JSON, the operation fails
with the 500 `HTTPException` carrying the raw response and no word is
persisted.  Required keys, however, are not validated: a parsed object
lacking "definition" still persists a word with null definition and
succeeds, while one lacking "uzbek" fails only at the store's NOT NULL
constraint (an uncaught error, not the 500 malformed-response error), with
no word persisted. -/
theorem search_malformed_completion_behavior
    (db : DictDB) (q : String) (resp : ProviderResponse)
    (json_loads : String → Option Json)
    (hmiss : db_search db q = [])
    (hstatus : resp.status_code = 200)
    (data : Json) (hdata : resp.json_body = some data) :
    ((extract_ai_text data).bind json_loads = none →
      (search_words db q resp json_loads).outcome =
        .error (.invalidGeminiFormat data) ∧
      (SearchFailure.invalidGeminiFormat data).httpStatus = some 500 ∧
      (search_words db q resp json_loads).db = db) ∧
    (∀ fields : List (String × Json),
      (extract_ai_text data).bind json_loads = some (.obj fields) →
      fields.lookup "uzbek" = none →
      (search_words db q resp json_loads).outcome = .error .integrityCrash ∧
      SearchFailure.integrityCrash.httpStatus = none ∧
      (search_words db q resp json_loads).db.words = db.words) ∧
    (∀ fields : List (String × Json), ∀ u : String,
      (extract_ai_text data).bind json_loads = some (.obj fields) →
      fields.lookup "uzbek" = some (.str u) →
      fields.lookup "definition" = none →
      ∃ w : Word, (search_words db q resp json_loads).outcome = .ok [w] ∧
        w.definition = none ∧
        (search_words db q resp json_loads).db.words = db.words ++ [w]) := by
  have hwords := (get_or_create_gemini_category_spec db).2.2
  refine ⟨fun hparse => ?_, fun fields hparse hu => ?_,
          fun fields u hparse hu hd => ?_⟩
  · refine ⟨?_, rfl, ?_⟩ <;> simp [search_words, hmiss, hstatus, hdata, hparse]
  · refine ⟨?_, rfl, ?_⟩ <;>
      simp [search_words, hmiss, hstatus, hdata, hparse, hu, hwords]
  · refine ⟨⟨(get_or_create_gemini_category db).2.nextUid, u, q, none,
             (get_or_create_gemini_category db).1.uid⟩, ?_, rfl, ?_⟩ <;>
      simp [search_words, hmiss, hstatus, hdata, hparse, hu, hd, hwords]

/-- Witness for the C3 amended theorem: an unparseable completion against
an empty store yields the 500 invalid-format error with the store left
unchanged. -/
theorem search_malformed_completion_behavior_witness :
    (search_words ⟨[], [], 0⟩ "zxqv" ⟨200, some geminiData0, "raw"⟩
      (fun _ => none)).outcome = .error (.invalidGeminiFormat geminiData0) ∧
    (SearchFailure.invalidGeminiFormat geminiData0).httpStatus = some 500 ∧
    (search_words ⟨[], [], 0⟩ "zxqv" ⟨200, some geminiData0, "raw"⟩
      (fun _ => none)).db = ⟨[], [], 0⟩ :=
  (search_malformed_completion_behavior ⟨[], [], 0⟩ "zxqv"
    ⟨200, some geminiData0, "raw"⟩ (fun _ => none) rfl rfl
    geminiData0 rfl).1 rfl

/-- C4: in the miss path, a non-success provider status makes the operation
fail with the 502 `HTTPException` carrying the provider's status code and
raw payload, after exactly one provider call (no retry), with the store
left entirely unchanged (no word, no category). -/
theorem search_provider_error_returns_502
    (db : DictDB) (q : String) (resp : ProviderResponse)
    (json_loads : String → Option Json)
    (hmiss : db_search db q = [])
    (hstatus : resp.status_code ≠ 200) :
    (search_words db q resp json_loads).outcome =
      .error (.geminiServiceError resp.status_code (error_payload resp)) ∧
    (SearchFailure.geminiServiceError resp.status_code
      (error_payload resp)).httpStatus = some 502 ∧
    (search_words db q resp json_loads).provider_calls = 1 ∧
    (search_words db q resp json_loads).db = db := by
  refine ⟨?_, rfl, ?_, ?_⟩ <;> simp [search_words, hmiss, hstatus]

/-- Witness for C4: a provider failure with status 503 against an empty
store yields the 502 error with provider status and payload, one call, and
no store change. -/
theorem search_provider_error_returns_502_witness :
    (search_words ⟨[], [], 0⟩ "zxqv" ⟨503, none, "boom"⟩
      (fun _ => none)).outcome =
      .error (.geminiServiceError 503 (error_payload ⟨503, none, "boom"⟩)) ∧
    (SearchFailure.geminiServiceError 503
      (error_payload ⟨503, none, "boom"⟩)).httpStatus = some 502 ∧
    (search_words ⟨[], [], 0⟩ "zxqv" ⟨503, none, "boom"⟩
      (fun _ => none)).provider_calls = 1 ∧
    (search_words ⟨[], [], 0⟩ "zxqv" ⟨503, none, "boom"⟩
      (fun _ => none)).db = ⟨[], [], 0⟩ :=
  search_provider_error_returns_502 ⟨[], [], 0⟩ "zxqv" ⟨503, none, "boom"⟩
    (fun _ => none) rfl (by decide)

/-- C5: after every successful `add_member` or `remove_member`, the stored
`members_count` equals the size of the actual member set (it is recomputed
as the new set's size, and the member list stays duplicate-free), and an
add followed by a remove of the same user restores both the member set and
— when the count was in sync — the original count. -/
theorem members_count_matches_member_set
    (db : GroupDB) (guid caller target : Nat) :
    (∀ g' db', add_member db guid caller target = .ok (g', db') →
        g'.members_count = g'.members.length ∧
        (∀ g, find_group db guid = some g → g.members.Nodup →
          g'.members.Nodup)) ∧
    (∀ g' db', remove_member db guid caller target = .ok (g', db') →
        g'.members_count = g'.members.length ∧
        (∀ g, find_group db guid = some g → g.members.Nodup →
          g'.members.Nodup)) ∧
    (∀ g g1 db1 g2 db2, find_group db guid = some g →
        add_member db guid caller target = .ok (g1, db1) →
        remove_member db1 guid caller target = .ok (g2, db2) →
        g2.members = g.members ∧
        (g.members_count = g.members.length →
          g2.members_count = g.members_count)) := by
  refine ⟨?_, ?_, ?_⟩
  · intro g' db' h
    obtain ⟨g, hf, how, hu, hm, hg', hdb'⟩ := add_member_ok_inv _ _ _ _ _ _ h
    subst hg'
    refine ⟨rfl, ?_⟩
    intro g0 hf0 hnd
    obtain rfl := Option.some.inj (hf.symm.trans hf0)
    have hnm : target ∉ g.members := by
      unfold Group.is_member at hm
      exact not_mem_of_contains_eq_false hm
    simp only [List.nodup_append]
    refine ⟨hnd, List.nodup_singleton _, ?_⟩
    intro a ha hb
    rw [List.mem_singleton.mp hb] at ha
    exact hnm ha
  · intro g' db' h
    obtain ⟨g, hf, how, hm, hg', hdb'⟩ := remove_member_ok_inv _ _ _ _ _ _ h
    subst hg'
    refine ⟨rfl, ?_⟩
    intro g0 hf0 hnd
    obtain rfl := Option.some.inj (hf.symm.trans hf0)
    exact List.Nodup.filter _ hnd
  · intro g g1 db1 g2 db2 hf hadd hrem
    obtain ⟨g0, hf0, how, hu, hm, hg1, hdb1⟩ := add_member_ok_inv _ _ _ _ _ _ hadd
    obtain rfl := Option.some.inj (hf.symm.trans hf0)
    obtain ⟨gg, hfg, howg, hmg, hg2, hdb2⟩ := remove_member_ok_inv _ _ _ _ _ _ hrem
    have hfind1 : find_group db1 guid = some g1 := by
      rw [hdb1, hg1]
      exact find_group_put_group db guid g _ hf rfl
    obtain rfl := Option.some.inj ((hfind1.symm.trans hfg))
    have hnm : target ∉ g.members := by
      unfold Group.is_member at hm
      exact not_mem_of_contains_eq_false hm
    have hmembers : g2.members = g.members := by
      rw [hg2, hg1]
      simp only [List.filter_append]
      rw [filter_bne_of_not_mem hnm]
      simp
    refine ⟨hmembers, ?_⟩
    intro hsync
    rw [hg2, hg1]
    simp only [List.filter_append]
    rw [filter_bne_of_not_mem hnm]
    simp [hsync]

/-- Witness for C5 at a concrete store: the owner (id 5) adds user 7 to
group 1 (members {8}) and removes them again; both intermediate counts
match the member-set size and the round trip restores members [8] and
count 1. -/
theorem members_count_matches_member_set_witness :
    ∃ g1 db1 g2 db2,
      add_member groupDB 1 5 7 = .ok (g1, db1) ∧
      remove_member db1 1 5 7 = .ok (g2, db2) ∧
      g1.members_count = g1.members.length ∧
      g2.members = [8] ∧ g2.members_count = 1 := by
  refine ⟨_, _, _, _, rfl, rfl, ?_, ?_, ?_⟩
  · exact ((members_count_matches_member_set groupDB 1 5 7).1 _ _ rfl).1
  · exact ((members_count_matches_member_set groupDB 1 5 7).2.2
      ⟨1, "Math101", none, 5, 1, [8]⟩ _ _ _ _ rfl rfl rfl).1
  · exact ((members_count_matches_member_set groupDB 1 5 7).2.2
      ⟨1, "Math101", none, 5, 1, [8]⟩ _ _ _ _ rfl rfl rfl).2 rfl

/-- C6: for an existing group and an owner-authenticated add-member
request: a nonexistent target user yields 404 `"User not found"`; a target
already in the member set yields the already-a-member conflict error (the
code realizes the spec's `Conflict` class as HTTP 400
`"User is already a member"`), leaving every stored member set unchanged;
otherwise the target is appended and the member count recomputed as the new
set's size. -/
theorem add_member_error_cases
    (db : GroupDB) (guid caller target : Nat) (g : Group)
    (hg : find_group db guid = some g) (how : g.is_owner caller = true) :
    (find_user db target = none →
      add_member db guid caller target = .error ⟨404, "User not found"⟩) ∧
    (∀ u, find_user db target = some u → g.is_member target = true →
      add_member db guid caller target =
        .error ⟨400, "User is already a member"⟩) ∧
    (∀ u, find_user db target = some u → g.is_member target = false →
      add_member db guid caller target =
        .ok ({ g with members := g.members ++ [target],
                      members_count := (g.members ++ [target]).length },
             put_group db
               { g with members := g.members ++ [target],
                        members_count := (g.members ++ [target]).length })) := by
  refine ⟨fun hu => ?_, fun u hu hm => ?_, fun u hu hm => ?_⟩ <;>
    simp [add_member, check_group_ownership, hg, how, hu, *]

/-- Witness for C6 at the concrete store: adding the nonexistent user 99
is a 404, re-adding the member 8 is the already-a-member error, and adding
the existing non-member 7 succeeds with recomputed count 2. -/
theorem add_member_error_cases_witness :
    add_member groupDB 1 5 99 = .error ⟨404, "User not found"⟩ ∧
    add_member groupDB 1 5 8 = .error ⟨400, "User is already a member"⟩ ∧
    add_member groupDB 1 5 7 =
      .ok ({ uid := 1, name := "Math101", description := none, owner_id := 5,
             members_count := 2, members := [8, 7] },
           put_group groupDB
             { uid := 1, name := "Math101", description := none, owner_id := 5,
               members_count := 2, members := [8, 7] }) :=
  ⟨(add_member_error_cases groupDB 1 5 99 ⟨1, "Math101", none, 5, 1, [8]⟩
      rfl rfl).1 rfl,
   (add_member_error_cases groupDB 1 5 8 ⟨1, "Math101", none, 5, 1, [8]⟩
      rfl rfl).2.1 (mkUsers 8 "m@x" "mm" "student") rfl rfl,
   (add_member_error_cases groupDB 1 5 7 ⟨1, "Math101", none, 5, 1, [8]⟩
      rfl rfl).2.2 (mkUsers 7 "s@x" "ss" "student") rfl rfl⟩

/-- C9: every mutating group operation (update, delete, add member, remove
member) resolves the group before evaluating ownership: an absent group id
yields 404 `"Group not found"` for every caller, and only a present group
with a non-owner caller yields the 403 ownership error — so a non-owner
calling on a nonexistent group always sees 404, never 403. -/
theorem mutating_group_ops_404_before_403
    (db : GroupDB) (guid caller target : Nat) (gin : GroupUpdate) :
    (find_group db guid = none →
        update_group db guid caller gin = .error ⟨404, "Group not found"⟩ ∧
        delete_group db guid caller = .error ⟨404, "Group not found"⟩ ∧
        add_member db guid caller target = .error ⟨404, "Group not found"⟩ ∧
        remove_member db guid caller target =
          .error ⟨404, "Group not found"⟩) ∧
    (∀ g, find_group db guid = some g → g.is_owner caller = false →
        update_group db guid caller gin =
          .error ⟨403, "Only group owner can perform this action"⟩ ∧
        delete_group db guid caller =
          .error ⟨403, "Only group owner can perform this action"⟩ ∧
        add_member db guid caller target =
          .error ⟨403, "Only group owner can perform this action"⟩ ∧
        remove_member db guid caller target =
          .error ⟨403, "Only group owner can perform this action"⟩) := by
  constructor
  · intro hf
    refine ⟨?_, ?_, ?_, ?_⟩ <;>
      simp [update_group, delete_group, add_member, remove_member,
            check_group_ownership, hf]
  · intro g hf how
    refine ⟨?_, ?_, ?_, ?_⟩ <;>
      simp [update_group, delete_group, add_member, remove_member,
            check_group_ownership, hf, how]

/-- Witness for C9 at the concrete store: the four operations on the absent
group 99 all yield 404 (caller 7 is not an owner of anything), and on the
present group 1 with non-owner caller 7 all yield 403. -/
theorem mutating_group_ops_404_before_403_witness :
    (update_group groupDB 99 7 ⟨none, none⟩ =
        .error ⟨404, "Group not found"⟩ ∧
      delete_group groupDB 99 7 = .error ⟨404, "Group not found"⟩ ∧
      add_member groupDB 99 7 8 = .error ⟨404, "Group not found"⟩ ∧
      remove_member groupDB 99 7 8 = .error ⟨404, "Group not found"⟩) ∧
    (update_group groupDB 1 7 ⟨none, none⟩ =
        .error ⟨403, "Only group owner can perform this action"⟩ ∧
      delete_group groupDB 1 7 =
        .error ⟨403, "Only group owner can perform this action"⟩ ∧
      add_member groupDB 1 7 8 =
        .error ⟨403, "Only group owner can perform this action"⟩ ∧
      remove_member groupDB 1 7 8 =
        .error ⟨403, "Only group owner can perform this action"⟩) :=
  ⟨(mutating_group_ops_404_before_403 groupDB 99 7 8 ⟨none, none⟩).1 rfl,
   (mutating_group_ops_404_before_403 groupDB 1 7 8 ⟨none, none⟩).2
     ⟨1, "Math101", none, 5, 1, [8]⟩ rfl rfl⟩

/-- C7: once the stored user count has reached the fixed ceiling of 3,
`register_user` rejects every registration attempt with the capacity error,
whatever the submitted fields are (the capacity check runs before any field
is inspected, so no user is created); and from an empty store, three
registrations of users with pairwise distinct emails and usernames succeed
while the fourth attempt — however valid — is rejected with the capacity
error. -/
theorem register_user_capacity_ceiling (hash : String → String) :
    (∀ db user, 3 ≤ db.users.length →
        register_user hash db user = .error regClosedErr) ∧
    (∀ u1 u2 u3 u4 : UserCreate, ∀ nid : Nat,
        u2.email ≠ u1.email → u2.user_name ≠ u1.user_name →
        u3.email ≠ u1.email → u3.email ≠ u2.email →
        u3.user_name ≠ u1.user_name → u3.user_name ≠ u2.user_name →
        ∃ db1 r1 db2 r2 db3 r3,
          register_user hash ⟨[], nid⟩ u1 = .ok (db1, r1) ∧
          register_user hash db1 u2 = .ok (db2, r2) ∧
          register_user hash db2 u3 = .ok (db3, r3) ∧
          register_user hash db3 u4 = .error regClosedErr) := by
  constructor
  · intro db user h
    simp [register_user, h]
  · intro u1 u2 u3 u4 nid h21e h21u h31e h32e h31u h32u
    have e21 : (u1.email == u2.email) = false :=
      beq_eq_false_iff_ne.mpr (Ne.symm h21e)
    have n21 : (u1.user_name == u2.user_name) = false :=
      beq_eq_false_iff_ne.mpr (Ne.symm h21u)
    have e31 : (u1.email == u3.email) = false :=
      beq_eq_false_iff_ne.mpr (Ne.symm h31e)
    have e32 : (u2.email == u3.email) = false :=
      beq_eq_false_iff_ne.mpr (Ne.symm h32e)
    have n31 : (u1.user_name == u3.user_name) = false :=
      beq_eq_false_iff_ne.mpr (Ne.symm h31u)
    have n32 : (u2.user_name == u3.user_name) = false :=
      beq_eq_false_iff_ne.mpr (Ne.symm h32u)
    refine ⟨⟨[⟨nid, u1.email, u1.user_name, u1.full_name, u1.phone_number,
              u1.role, "active", hash u1.password⟩], nid + 1⟩,
            ⟨nid, u1.email, u1.user_name, u1.full_name, u1.phone_number,
             u1.role, "active", hash u1.password⟩,
            ⟨[⟨nid, u1.email, u1.user_name, u1.full_name, u1.phone_number,
               u1.role, "active", hash u1.password⟩,
              ⟨nid + 1, u2.email, u2.user_name, u2.full_name, u2.phone_number,
               u2.role, "active", hash u2.password⟩], nid + 2⟩,
            ⟨nid + 1, u2.email, u2.user_name, u2.full_name, u2.phone_number,
             u2.role, "active", hash u2.password⟩,
            ⟨[⟨nid, u1.email, u1.user_name, u1.full_name, u1.phone_number,
               u1.role, "active", hash u1.password⟩,
              ⟨nid + 1, u2.email, u2.user_name, u2.full_name, u2.phone_number,
               u2.role, "active", hash u2.password⟩,
              ⟨nid + 2, u3.email, u3.user_name, u3.full_name, u3.phone_number,
               u3.role, "active", hash u3.password⟩], nid + 3⟩,
            ⟨nid + 2, u3.email, u3.user_name, u3.full_name, u3.phone_number,
             u3.role, "active", hash u3.password⟩,
            rfl, ?_, ?_, ?_⟩
    · simp [register_user, e21, n21]
    · simp [register_user, e31, e32, n31, n32]
    · simp [register_user]

/-- Witness for C7: a fourth valid registration against a full store of 3
users is rejected with the capacity error, and the three-then-reject
scenario plays out from the empty store on concrete distinct users. -/
theorem register_user_capacity_ceiling_witness :
    register_user (fun s => s) fullUserDB ⟨"d@x", "dd", "D", "4", "student", "p"⟩ =
      .error regClosedErr ∧
    ∃ db1 r1 db2 r2 db3 r3,
      register_user (fun s => s) ⟨[], 0⟩ ⟨"a@x", "aa", "A", "1", "student", "p"⟩ =
        .ok (db1, r1) ∧
      register_user (fun s => s) db1 ⟨"b@x", "bb", "B", "2", "student", "p"⟩ =
        .ok (db2, r2) ∧
      register_user (fun s => s) db2 ⟨"c@x", "cc", "C", "3", "student", "p"⟩ =
        .ok (db3, r3) ∧
      register_user (fun s => s) db3 ⟨"d@x", "dd", "D", "4", "student", "p"⟩ =
        .error regClosedErr :=
  ⟨(register_user_capacity_ceiling (fun s => s)).1 fullUserDB
     ⟨"d@x", "dd", "D", "4", "student", "p"⟩ (by decide),
   (register_user_capacity_ceiling (fun s => s)).2
     ⟨"a@x", "aa", "A", "1", "student", "p"⟩
     ⟨"b@x", "bb", "B", "2", "student", "p"⟩
     ⟨"c@x", "cc", "C", "3", "student", "p"⟩
     ⟨"d@x", "dd", "D", "4", "student", "p"⟩ 0
     (by decide) (by decide) (by decide) (by decide) (by decide) (by decide)⟩

/-- C8: a bearer token that fails validation (invalid signature or past
expiry) is rejected with 401 Unauthorized, while a token that validates but
whose bound user id resolves to no user is rejected with 404 NotFound —
and the 404 outcome occurs only after successful token validation. -/
theorem token_rejection_classes (db : UserDB) (t : BearerToken) :
    (t.signature_valid = false ∨ t.expired = true →
        user_detail db t =
          .error ⟨401, "Invalid authentication credentials"⟩) ∧
    (∀ uid, decode_token t = some uid → find_user_by_id db uid = none →
        user_detail db t = .error ⟨404, "User not found"⟩) ∧
    (user_detail db t = .error ⟨404, "User not found"⟩ →
        ∃ uid, decode_token t = some uid ∧ find_user_by_id db uid = none) := by
  refine ⟨?_, ?_, ?_⟩
  · intro h
    have hd : decode_token t = none := by
      unfold decode_token
      rcases h with h | h <;> simp [h]
    simp [user_detail, hd]
  · intro uid hd hf
    simp [user_detail, hd, hf]
  · intro h
    unfold user_detail at h
    cases hd : decode_token t with
    | none => rw [hd] at h; simp at h
    | some uid =>
        rw [hd] at h
        cases hf : find_user_by_id db uid with
        | none => exact ⟨uid, rfl, hf⟩
        | some u => simp [hf] at h

/-- Witness for C8: against an empty user store, an expired token is a
401 while a valid token bound to the absent user 1 is a 404. -/
theorem token_rejection_classes_witness :
    user_detail ⟨[], 0⟩ ⟨true, true, 1⟩ =
      .error ⟨401, "Invalid authentication credentials"⟩ ∧
    user_detail ⟨[], 0⟩ ⟨true, false, 1⟩ =
      .error ⟨404, "User not found"⟩ :=
  ⟨(token_rejection_classes ⟨[], 0⟩ ⟨true, true, 1⟩).1 (Or.inr rfl),
   (token_rejection_classes ⟨[], 0⟩ ⟨true, false, 1⟩).2.1 1 rfl rfl⟩

/-- C10 counterexample: the schema accepts the role "superuser", but the
database enum does not — the corresponding update request by the student
(id 7) does not set the role: the commit fails and the handler returns the
500 rollback error, refuting "any schema-accepted value". -/
theorem update_user_superuser_not_settable :
    ("superuser" ∈ schema_roles) ∧ ("superuser" ∉ db_roles) ∧
    update_user oneUserDB ⟨true, false, 7⟩
        ⟨"a@x", "aa", "Name", "phone", "superuser"⟩ =
      .error ⟨500, "Failed to update user. Please try again later."⟩ :=
  ⟨by decide, by decide, rfl⟩

/-- C10 amended: for every authenticated user — regardless of their current
role, with no role-based authorization check — an `update_user` request
that passes the uniqueness checks and whose role is accepted by both the
request schema and the database role enum (in particular "admin") succeeds
and unconditionally overwrites all of `full_name`, `phone_number`, `email`,
`user_name` and `role` with the request's values; the schema-accepted value
"superuser" is the exception: it is outside the database enum, so the
commit fails with the 500 rollback error and the role is left unchanged. -/
theorem update_user_overwrites_all_fields
    (db : UserDB) (t : BearerToken) (req : UserBase)
    (uid : Nat) (u : Users)
    (hd : decode_token t = some uid)
    (hf : find_user_by_id db uid = some u)
    (hrole : req.role ∈ schema_roles ∧ req.role ∈ db_roles)
    (he : req.email = u.email ∨
      (db.users.find? (fun x => x.email == req.email)).isSome = false)
    (hn : req.user_name = u.user_name ∨
      (db.users.find? (fun x => x.user_name == req.user_name)).isSome
        = false) :
    update_user db t req =
      .ok (put_user db
             { u with full_name := req.full_name,
                      phone_number := req.phone_number,
                      email := req.email,
                      user_name := req.user_name,
                      role := req.role },
           { u with full_name := req.full_name,
                    phone_number := req.phone_number,
                    email := req.email,
                    user_name := req.user_name,
                    role := req.role }) := by
  have hce : (req.email != u.email &&
      (db.users.find? (fun x => x.email == req.email)).isSome) = false := by
    rcases he with h | h <;> simp [h]
  have hcn : (req.user_name != u.user_name &&
      (db.users.find? (fun x => x.user_name == req.user_name)).isSome)
        = false := by
    rcases hn with h | h <;> simp [h]
  have hcr : db_roles.contains req.role = true := by
    rw [List.contains]
    exact List.elem_iff.mpr hrole.2
  simp [update_user, hd, hf, hce, hcn, hcr]
  exact hrole.2

/-- Witness for the C10 amended theorem: a student (id 7) with a valid
token sets their own role to "admin" (accepted by schema and database
enum); the update succeeds and the stored row carries role "admin". -/
theorem update_user_overwrites_all_fields_witness :
    update_user oneUserDB ⟨true, false, 7⟩
        ⟨"a@x", "aa", "Name", "phone", "admin"⟩ =
      .ok (put_user oneUserDB ⟨7, "a@x", "aa", "Name", "phone", "admin",
             "active", "pw"⟩,
           ⟨7, "a@x", "aa", "Name", "phone", "admin", "active", "pw"⟩) :=
  update_user_overwrites_all_fields oneUserDB ⟨true, false, 7⟩
    ⟨"a@x", "aa", "Name", "phone", "admin"⟩ 7
    (mkUsers 7 "a@x" "aa" "student") rfl rfl ⟨by decide, by decide⟩
    (Or.inl rfl) (Or.inl rfl)

end Langufy
